import Mathlib

/-!
Verification of the Inspector core of `inspection_game.py` (OneMoreRun).

The Python code is shallowly embedded: the `InspectorAI` class becomes a
structure, its methods become pure functions returning the new state, and the
instance-owned seeded generator `random.Random(seed)` is modelled by the stream
of values it produces: a function `rng : ℕ → ℚ` held in the state together with
a cursor `rngIdx`; each `self.rng.random()` call reads the stream at the cursor
and advances it.  Since Python seeds the generator once at construction, a
fixed seed corresponds to a fixed stream.  Python floats are modelled as exact
rationals; all operations involved (+, -, *, min, max, <) are order-exact, so
the branch structure is preserved.
-/

namespace OneMoreRun

/-- Smuggler actions (`ACT_SMUGGLE`, `ACT_LAY_LOW`, `ACT_BRIBE`,
`ACT_SIGNAL_TRUCE`, lines 46-49). -/
inductive SmugglerAct
  | smuggle
  | layLow
  | bribe
  | signalTruce
deriving DecidableEq, Repr

/-- Inspector actions (`ACT_INSPECT`, `ACT_DONT_INSPECT`, `ACT_ACCEPT_BRIBE`,
`ACT_SET_TRAP`, lines 51-54). -/
inductive InspectorAct
  | inspect
  | dontInspect
  | acceptBribe
  | setTrap
deriving DecidableEq, Repr

/-- The `pending_deal` string sentinel: `None`, `"accepted"`, `"trap"`,
`"safe"` (lines 535, 771, 773, 781). -/
inductive PendingDeal
  | none
  | accepted
  | trap
  | safe
deriving DecidableEq, Repr

/-- Constant `EARLY_GAME_END` (line 26). -/
def EARLY_GAME_END : ℕ := 6

/-- Constant `MID_GAME_END` (line 27). -/
def MID_GAME_END : ℕ := 14

/-- Constant `PAYOFF_SMUGGLE_INSPECT` (line 36). -/
def PAYOFF_SMUGGLE_INSPECT : ℤ := -5

/-- Constant `PAYOFF_SMUGGLE_DONT` (line 37). -/
def PAYOFF_SMUGGLE_DONT : ℤ := 10

/-- Constant `PAYOFF_LAYLOW_INSPECT` (line 38). -/
def PAYOFF_LAYLOW_INSPECT : ℤ := 0

/-- Constant `PAYOFF_LAYLOW_DONT` (line 39). -/
def PAYOFF_LAYLOW_DONT : ℤ := 1

/-- Constant `BRIBE_COST` (line 42). -/
def BRIBE_COST : ℤ := 3

/-- The `(action, is_bait, announced_intent)` triple returned by
`InspectorAI.decide` (spec: DecisionResult). -/
structure DecisionResult where
  action : InspectorAct
  is_bait : Bool
  announced_intent : Option String
deriving DecidableEq, Repr

/-- State of an `InspectorAI` instance (lines 519-550), with the fields of the
embedded `InspectorPersonality` that the core methods touch (`mood`,
`honesty_streak`, `betrayal_count`) inlined.  `rng`/`rngIdx` model the
instance-owned `random.Random` as the stream of its future `random()` draws. -/
structure InspectorAI where
  rng : ℕ → ℚ
  rngIdx : ℕ
  history_smuggler : List SmugglerAct
  history_inspector : List InspectorAct
  history_bribes_offered : ℕ
  history_bribes_accepted : ℕ
  history_truces_signaled : ℕ
  history_traps_set : ℕ
  history_traps_sprung : ℕ
  trust_level : ℚ
  pending_deal : PendingDeal
  immunity_turns : ℕ
  consecutive_passive_rounds : ℕ
  greed : ℚ
  deceptiveness : ℚ
  adaptiveness : ℚ
  mood : String
  honesty_streak : ℕ
  betrayal_count : ℕ

namespace InspectorAI

/-- The next `self.rng.random()` value. -/
def rand (s : InspectorAI) : ℚ := s.rng s.rngIdx

/-- Advance the random stream by one draw. -/
def tick (s : InspectorAI) : InspectorAI := { s with rngIdx := s.rngIdx + 1 }

/-- Constructor `InspectorAI.__init__(seed)` (lines 519-550): fresh histories, trust 0.5,
no pending deal, no immunity, and the three personality traits drawn (in
order) by `rng.uniform(0.3,0.7)`, `rng.uniform(0.2,0.6)`, `rng.uniform(0.4,0.8)`;
Python computes `uniform(a,b)` as `a + (b-a)*random()`. -/
def init (stream : ℕ → ℚ) : InspectorAI where
  rng := stream
  rngIdx := 3
  history_smuggler := []
  history_inspector := []
  history_bribes_offered := 0
  history_bribes_accepted := 0
  history_truces_signaled := 0
  history_traps_set := 0
  history_traps_sprung := 0
  trust_level := 5/10
  pending_deal := PendingDeal.none
  immunity_turns := 0
  consecutive_passive_rounds := 0
  greed := 3/10 + (7/10 - 3/10) * stream 0
  deceptiveness := 2/10 + (6/10 - 2/10) * stream 1
  adaptiveness := 4/10 + (8/10 - 4/10) * stream 2
  mood := "neutral"
  honesty_streak := 0
  betrayal_count := 0

/-- Accessor `get_smuggle_frequency` (lines 552-556): 0.3 on an empty history, else the
fraction of recorded smuggler actions equal to Smuggle. -/
def get_smuggle_frequency (s : InspectorAI) : ℚ :=
  if s.history_smuggler = [] then 3/10
  else (s.history_smuggler.countP (fun a => a == SmugglerAct.smuggle) : ℚ) /
    (s.history_smuggler.length : ℚ)

/-- Accessor `get_cooperation_frequency` (lines 558-564): 0.5 on an empty history, else
the fraction of recorded actions in {LayLow, SignalTruce, Bribe}. -/
def get_cooperation_frequency (s : InspectorAI) : ℚ :=
  if s.history_smuggler = [] then 5/10
  else (s.history_smuggler.countP
      (fun a => a == SmugglerAct.layLow || a == SmugglerAct.signalTruce ||
        a == SmugglerAct.bribe) : ℚ) / (s.history_smuggler.length : ℚ)

/-- Method `_update_trust` (lines 614-627). -/
def _update_trust (last_player_action : Option SmugglerAct) (s : InspectorAI) :
    InspectorAI :=
  match last_player_action with
  | Option.none => s
  | some SmugglerAct.smuggle =>
      { s with trust_level := max 0 (s.trust_level - 1/10),
               consecutive_passive_rounds := 0 }
  | some SmugglerAct.layLow =>
      { s with trust_level := min 1 (s.trust_level + 5/100),
               consecutive_passive_rounds := s.consecutive_passive_rounds + 1 }
  | some SmugglerAct.signalTruce =>
      { s with trust_level := min 1 (s.trust_level + 5/100),
               consecutive_passive_rounds := s.consecutive_passive_rounds + 1 }
  | some SmugglerAct.bribe =>
      { s with trust_level := min 1 (s.trust_level + 2/100),
               consecutive_passive_rounds := 0 }

/-- Method `_set_mood` (lines 629-640); `personality.set_mood` just stores the string.
The only rng draw is the deceptive/friendly roll in the high-trust branch. -/
def _set_mood (smuggle_freq : ℚ) (s : InspectorAI) : InspectorAI :=
  if smuggle_freq > 5/10 then { s with mood := "aggressive" }
  else if s.trust_level > 7/10 then
    if s.rand < s.deceptiveness then { s.tick with mood := "deceptive" }
    else { s.tick with mood := "friendly" }
  else { s with mood := "neutral" }

/-- Method `_detect_pattern` (lines 724-749): streak of 3 smuggles → Inspect; streak
of 3 passive actions → DontInspect; otherwise, with ≥4 entries whose last four
are adjacent-distinct, predict the alternation; otherwise `None`. -/
def _detect_pattern (s : InspectorAI) : Option InspectorAct :=
  let h := s.history_smuggler
  if h.length < 3 then Option.none
  else
    let last3 := h.drop (h.length - 3)
    if last3.all (fun a => a == SmugglerAct.smuggle) then some InspectorAct.inspect
    else if last3.all
        (fun a => a == SmugglerAct.layLow || a == SmugglerAct.signalTruce) then
      some InspectorAct.dontInspect
    else if 4 ≤ h.length then
      match h.drop (h.length - 4) with
      | [a, b, c, d] =>
        if a ≠ b ∧ b ≠ c ∧ c ≠ d then
          if d = SmugglerAct.layLow ∨ d = SmugglerAct.signalTruce then
            some InspectorAct.inspect
          else some InspectorAct.dontInspect
        else Option.none
      | _ => Option.none
    else Option.none

/-- Method `personality.record_honesty` (lines 496-501). -/
def record_honesty (kept_word : Bool) (s : InspectorAI) : InspectorAI :=
  if kept_word then { s with honesty_streak := s.honesty_streak + 1 }
  else { s with honesty_streak := 0, betrayal_count := s.betrayal_count + 1 }

/-- Method `_early_game_decision` (lines 642-654).  Draw order: the `uniform(-0.1,0.1)`
noise (one `random()` call), then — only from round 4 on — the 0.15 bait roll,
then the roll against `base_prob`. -/
def _early_game_decision (round_num : ℕ) (s : InspectorAI) :
    DecisionResult × InspectorAI :=
  let base_prob : ℚ := 6/10 + (-(1/10) + (1/10 - -(1/10)) * s.rand)
  if 4 ≤ round_num then
    if s.tick.rand < 15/100 then
      (⟨InspectorAct.inspect, true, some "I might go easy on you..."⟩, s.tick.tick)
    else if s.tick.tick.rand < base_prob then
      (⟨InspectorAct.inspect, false, Option.none⟩, s.tick.tick.tick)
    else (⟨InspectorAct.dontInspect, false, Option.none⟩, s.tick.tick.tick)
  else
    if s.tick.rand < base_prob then
      (⟨InspectorAct.inspect, false, Option.none⟩, s.tick.tick)
    else (⟨InspectorAct.dontInspect, false, Option.none⟩, s.tick.tick)

/-- The "standard adaptive play" tail of `_mid_game_decision` (lines 669-688):
adaptive inspect probability, a possible bait/reverse-bait override, then the
roll against `inspect_prob`. -/
def _mid_adaptive (smuggle_freq : ℚ) (s : InspectorAI) :
    DecisionResult × InspectorAI :=
  let inspect_prob : ℚ :=
    if smuggle_freq > 45/100 then 75/100 + s.adaptiveness * (1/10)
    else if smuggle_freq < 2/10 then 35/100 - s.adaptiveness * (1/10)
    else 55/100
  if s.rand < s.deceptiveness * (4/10) then
    if s.tick.rand < 5/10 then
      (⟨InspectorAct.inspect, true, some "Taking it easy this round."⟩, s.tick.tick)
    else
      (⟨InspectorAct.dontInspect, false,
        some "You\x27re definitely getting caught."⟩, s.tick.tick)
  else if s.tick.rand < inspect_prob then
    (⟨InspectorAct.inspect, false, Option.none⟩, s.tick.tick)
  else (⟨InspectorAct.dontInspect, false, Option.none⟩, s.tick.tick)

/-- Method `_mid_game_decision` (lines 656-688): collusion check first (reciprocate
roll, else betray roll), then the adaptive tail. -/
def _mid_game_decision (smuggle_freq : ℚ) (s : InspectorAI) :
    DecisionResult × InspectorAI :=
  if s.trust_level > 65/100 ∧ 2 ≤ s.consecutive_passive_rounds then
    if s.rand < s.trust_level - 3/10 then
      (⟨InspectorAct.dontInspect, false,
        some "Let\x27s keep this arrangement going."⟩, s.tick)
    else if s.tick.rand < s.deceptiveness then
      (⟨InspectorAct.inspect, true, some "I appreciate the cooperation..."⟩,
        { s.tick.tick with history_traps_set := s.history_traps_set + 1 })
    else _mid_adaptive smuggle_freq s.tick.tick
  else _mid_adaptive smuggle_freq s

/-- The tail of `_late_game_decision` after the pattern check and the
high-trust end-game check (lines 705-722). -/
def _late_exploit (round_num : ℕ) (smuggle_freq : ℚ) (s : InspectorAI) :
    DecisionResult × InspectorAI :=
  if smuggle_freq > 55/100 then
    (⟨InspectorAct.inspect, false, some "Too aggressive. Predictable."⟩, s)
  else if smuggle_freq < 2/10 then
    if s.rand < s.deceptiveness then
      (⟨InspectorAct.inspect, true, some "Safe players are boring."⟩, s.tick)
    else (⟨InspectorAct.dontInspect, false, Option.none⟩, s.tick)
  else if 19 ≤ round_num then
    if s.rand < 7/10 then
      (⟨InspectorAct.inspect, false, some "Can\x27t let you win now."⟩, s.tick)
    else if s.tick.rand < 55/100 then
      (⟨InspectorAct.inspect, false, Option.none⟩, s.tick.tick)
    else (⟨InspectorAct.dontInspect, false, Option.none⟩, s.tick.tick)
  else if s.rand < 55/100 then
    (⟨InspectorAct.inspect, false, Option.none⟩, s.tick)
  else (⟨InspectorAct.dontInspect, false, Option.none⟩, s.tick)

/-- The high-trust end-game check of `_late_game_decision` (lines 700-703)
followed by the exploitation tail. -/
def _late_trust (round_num : ℕ) (smuggle_freq : ℚ) (s : InspectorAI) :
    DecisionResult × InspectorAI :=
  if s.trust_level > 75/100 ∧ 18 ≤ round_num then
    if s.rand < 5/10 then
      (⟨InspectorAct.dontInspect, false, some "We\x27ve built something here."⟩,
        s.tick)
    else _late_exploit round_num smuggle_freq s.tick
  else _late_exploit round_num smuggle_freq s

/-- Method `_late_game_decision` (lines 690-722): pattern detection first (used with
probability 0.7), then the high-trust check, then exploitation. -/
def _late_game_decision (round_num : ℕ) (smuggle_freq : ℚ) (s : InspectorAI) :
    DecisionResult × InspectorAI :=
  match s._detect_pattern with
  | some a =>
      if s.rand < 7/10 then
        (⟨a, false, some "I see what you\x27re doing."⟩, s.tick)
      else _late_trust round_num smuggle_freq s.tick
  | Option.none => _late_trust round_num smuggle_freq s

/-- Method `decide` (lines 566-612).  Immunity short-circuits first (the inner
`pending_deal == "trap"` check is a `pass` and has no effect); then the legacy
`"accepted"` branch; otherwise frequencies are read, trust and mood updated,
and the phase handler dispatched on the round number. -/
def decide (s : InspectorAI) (round_num : ℕ) (player_score : ℤ)
    (last_player_action : Option SmugglerAct) : DecisionResult × InspectorAI :=
  if 0 < s.immunity_turns then
    (⟨InspectorAct.dontInspect, false, some "I\x27m looking the other way."⟩,
      { s with immunity_turns := s.immunity_turns - 1 })
  else if s.pending_deal = PendingDeal.accepted then
    let s1 := { s with pending_deal := PendingDeal.none }
    if s1.rand > s1.deceptiveness then
      (⟨InspectorAct.dontInspect, false, some "I\x27ll keep my word."⟩,
        record_honesty true s1.tick)
    else
      (⟨InspectorAct.inspect, true, some "A deal\x27s a deal... or is it?"⟩,
        { record_honesty false s1.tick with
            history_traps_set := s1.history_traps_set + 1 })
  else
    let smuggle_freq := s.get_smuggle_frequency
    let s1 := _set_mood smuggle_freq (_update_trust last_player_action s)
    if round_num ≤ EARLY_GAME_END then _early_game_decision round_num s1
    else if round_num ≤ MID_GAME_END then _mid_game_decision smuggle_freq s1
    else _late_game_decision round_num smuggle_freq s1

/-- Method `personality.get_bribe_response` static fallback (lines 468-481); it draws
no randomness. -/
def get_bribe_response (accepted will_honor : Bool) : String :=
  if accepted then
    if will_honor then "Deal. You\x27ve bought yourself a pass."
    else "Deal. I\x27ll look the other way."
  else "I can\x27t be bought. Not today."

/-- Method `handle_bribe` (lines 751-786): acceptance probability
`greed + trust*0.2 - (0.15 if round > MID_GAME_END)`; on acceptance a second
draw decides betrayal (`< deceptiveness*0.5`); betrayal leaves
`pending_deal="trap"`, honoring grants `immunity_turns=2` and
`pending_deal="safe"` (overwriting the transient `"accepted"`). -/
def handle_bribe (s : InspectorAI) (round_num : ℕ) (player_score : ℤ) :
    (Bool × String) × InspectorAI :=
  let s0 : InspectorAI :=
    { s with history_bribes_offered := s.history_bribes_offered + 1 }
  let acceptance_prob : ℚ := s0.greed + s0.trust_level * (2/10) -
    (if MID_GAME_END < round_num then 15/100 else 0)
  if s0.rand < acceptance_prob then
    let s1 : InspectorAI := { s0.tick with
      history_bribes_accepted := s0.history_bribes_accepted + 1 }
    if s1.rand < s1.deceptiveness * (5/10) then
      ((true, get_bribe_response true false),
        { s1.tick with pending_deal := PendingDeal.trap })
    else
      ((true, get_bribe_response true true),
        { s1.tick with immunity_turns := 2, pending_deal := PendingDeal.safe })
  else ((false, get_bribe_response false false), s0.tick)

/-- Method `personality.get_truce_response` static fallback (lines 483-494). -/
def get_truce_response (trust_high : Bool) : String :=
  if trust_high then "Noted. Maybe we can work together."
  else "Trust is earned, not given."

/-- Method `handle_truce_signal` (lines 788-796): trust bumped by 0.1 (clamped at 1)
exactly when it is already above 0.6. -/
def handle_truce_signal (s : InspectorAI) : String × InspectorAI :=
  let s0 := { s with history_truces_signaled := s.history_truces_signaled + 1 }
  let trust_high := s0.trust_level > 6/10
  if trust_high then
    (get_truce_response true,
      { s0 with trust_level := min 1 (s0.trust_level + 1/10) })
  else (get_truce_response false, s0)

/-- Method `record_round` (lines 798-803). -/
def record_round (s : InspectorAI) (player_action : SmugglerAct)
    (inspector_action : InspectorAct) (was_trap_sprung : Bool) : InspectorAI :=
  { s with
    history_smuggler := s.history_smuggler ++ [player_action],
    history_inspector := s.history_inspector ++ [inspector_action],
    history_traps_sprung :=
      s.history_traps_sprung + (if was_trap_sprung then 1 else 0) }

end InspectorAI

/-- Method `InspectionGame.calculate_payoff` (lines 1022-1043): pure function of the
two actions and the quantity; `bribe_accepted` is accepted but unused, as in
the source. -/
def calculate_payoff (player_action : SmugglerAct)
    (inspector_action : InspectorAct) (bribe_accepted : Bool) (amount : ℤ) :
    ℤ :=
  let base : ℤ := if player_action = SmugglerAct.bribe then -BRIBE_COST else 0
  let effective_player :=
    if player_action = SmugglerAct.bribe ∨
        player_action = SmugglerAct.signalTruce then SmugglerAct.layLow
    else player_action
  if effective_player = SmugglerAct.smuggle then
    if inspector_action = InspectorAct.inspect then
      base + PAYOFF_SMUGGLE_INSPECT * amount
    else base + PAYOFF_SMUGGLE_DONT * amount
  else
    if inspector_action = InspectorAct.inspect then base + PAYOFF_LAYLOW_INSPECT
    else base + PAYOFF_LAYLOW_DONT

/-- The post-`decide` bribe/trap override in `InspectionGame.play_round`
(lines 1103-1109): an accepted bribe with no pending trap forces DontInspect;
a pending `"trap"` forces Inspect, marks the trap sprung, and resets
`pending_deal` to `None`.  Returns the resolved inspector action, the
`was_trap` flag, and the updated inspector state. -/
def resolve_bribe_override (bribe_accepted : Bool)
    (inspector_action : InspectorAct) (was_trap : Bool)
    (s : InspectorAI) : InspectorAct × Bool × InspectorAI :=
  if bribe_accepted ∧ s.pending_deal ≠ PendingDeal.trap then
    (InspectorAct.dontInspect, was_trap, s)
  else if s.pending_deal = PendingDeal.trap then
    (InspectorAct.inspect, true, { s with pending_deal := PendingDeal.none })
  else (inspector_action, was_trap, s)

/-- One call through the public interface of the Inspector core. -/
inductive Op
  | decideOp (round_num : ℕ) (player_score : ℤ) (last : Option SmugglerAct)
  | bribeOp (round_num : ℕ) (player_score : ℤ)
  | truceOp
  | recordOp (pa : SmugglerAct) (ia : InspectorAct) (trap : Bool)

/-- Observable output of one public-interface call. -/
inductive OpOut
  | decisionOut (d : DecisionResult)
  | bribeOut (accepted : Bool) (response : String)
  | truceOut (response : String)
  | unitOut
deriving DecidableEq, Repr

/-- Apply one public-interface call to an inspector state. -/
def step (s : InspectorAI) : Op → OpOut × InspectorAI
  | Op.decideOp r sc la =>
      (OpOut.decisionOut (s.decide r sc la).1, (s.decide r sc la).2)
  | Op.bribeOp r sc =>
      (OpOut.bribeOut (s.handle_bribe r sc).1.1 (s.handle_bribe r sc).1.2,
        (s.handle_bribe r sc).2)
  | Op.truceOp =>
      (OpOut.truceOut s.handle_truce_signal.1, s.handle_truce_signal.2)
  | Op.recordOp pa ia tr => (OpOut.unitOut, s.record_round pa ia tr)

/-- Apply a sequence of public-interface calls, collecting the outputs. -/
def runOps (s : InspectorAI) : List Op → List OpOut × InspectorAI
  | [] => ([], s)
  | op :: ops =>
      ((step s op).1 :: (runOps (step s op).2 ops).1,
        (runOps (step s op).2 ops).2)

/-- Record a list of rounds in order (`record_round` repeatedly). -/
def recordAll (s : InspectorAI) : List (SmugglerAct × InspectorAct × Bool) →
    InspectorAI
  | [] => s
  | r :: rs => recordAll (s.record_round r.1 r.2.1 r.2.2) rs

namespace InspectorAI

section PreservationLemmas

variable (s : InspectorAI)

lemma early_trust (r : ℕ) :
    ((_early_game_decision r s).2).trust_level = s.trust_level := by
  simp only [_early_game_decision]
  split_ifs <;> rfl

lemma early_pending (r : ℕ) :
    ((_early_game_decision r s).2).pending_deal = s.pending_deal := by
  simp only [_early_game_decision]
  split_ifs <;> rfl

lemma mid_adaptive_trust (q : ℚ) :
    ((_mid_adaptive q s).2).trust_level = s.trust_level := by
  simp only [_mid_adaptive]
  split_ifs <;> rfl

lemma mid_adaptive_pending (q : ℚ) :
    ((_mid_adaptive q s).2).pending_deal = s.pending_deal := by
  simp only [_mid_adaptive]
  split_ifs <;> rfl

lemma mid_trust (q : ℚ) :
    ((_mid_game_decision q s).2).trust_level = s.trust_level := by
  simp only [_mid_game_decision]
  split_ifs <;> first
    | rfl
    | simp [mid_adaptive_trust, tick]

lemma mid_pending (q : ℚ) :
    ((_mid_game_decision q s).2).pending_deal = s.pending_deal := by
  simp only [_mid_game_decision]
  split_ifs <;> first
    | rfl
    | simp [mid_adaptive_pending, tick]

lemma late_exploit_trust (r : ℕ) (q : ℚ) :
    ((_late_exploit r q s).2).trust_level = s.trust_level := by
  simp only [_late_exploit]
  split_ifs <;> rfl

lemma late_exploit_pending (r : ℕ) (q : ℚ) :
    ((_late_exploit r q s).2).pending_deal = s.pending_deal := by
  simp only [_late_exploit]
  split_ifs <;> rfl

lemma late_trust_trust (r : ℕ) (q : ℚ) :
    ((_late_trust r q s).2).trust_level = s.trust_level := by
  simp only [_late_trust]
  split_ifs <;> first
    | rfl
    | simp [late_exploit_trust, tick]

lemma late_trust_pending (r : ℕ) (q : ℚ) :
    ((_late_trust r q s).2).pending_deal = s.pending_deal := by
  simp only [_late_trust]
  split_ifs <;> first
    | rfl
    | simp [late_exploit_pending, tick]

lemma late_trust' (r : ℕ) (q : ℚ) :
    ((_late_game_decision r q s).2).trust_level = s.trust_level := by
  simp only [_late_game_decision]
  cases s._detect_pattern with
  | none => simp [late_trust_trust, tick]
  | some a => split_ifs <;> simp [late_trust_trust, tick]

lemma late_pending (r : ℕ) (q : ℚ) :
    ((_late_game_decision r q s).2).pending_deal = s.pending_deal := by
  simp only [_late_game_decision]
  cases s._detect_pattern with
  | none => simp [late_trust_pending, tick]
  | some a => split_ifs <;> simp [late_trust_pending, tick]

lemma set_mood_trust (q : ℚ) :
    (_set_mood q s).trust_level = s.trust_level := by
  simp only [_set_mood]
  split_ifs <;> rfl

lemma set_mood_pending (q : ℚ) :
    (_set_mood q s).pending_deal = s.pending_deal := by
  simp only [_set_mood]
  split_ifs <;> rfl

lemma update_trust_pending (la : Option SmugglerAct) :
    (_update_trust la s).pending_deal = s.pending_deal := by
  simp only [_update_trust]
  cases la with
  | none => rfl
  | some a => cases a <;> rfl

end PreservationLemmas

/-- While immune, `decide` short-circuits: the forced result and the state
with only `immunity_turns` decremented. -/
lemma decide_immune (s : InspectorAI) (r : ℕ) (sc : ℤ)
    (la : Option SmugglerAct) (h : 0 < s.immunity_turns) :
    s.decide r sc la =
      (⟨InspectorAct.dontInspect, false, some "I\x27m looking the other way."⟩,
        { s with immunity_turns := s.immunity_turns - 1 }) := by
  unfold decide
  rw [if_pos h]

lemma record_honesty_pending (b : Bool) (s : InspectorAI) :
    (record_honesty b s).pending_deal = s.pending_deal := by
  simp only [record_honesty]
  split_ifs <;> rfl

lemma record_honesty_trust (b : Bool) (s : InspectorAI) :
    (record_honesty b s).trust_level = s.trust_level := by
  simp only [record_honesty]
  split_ifs <;> rfl

/-- The pending deal after `decide`: only the legacy `"accepted"` sentinel is
consumed (reset to `None`); every other value passes through unchanged. -/
lemma decide_pending (s : InspectorAI) (r : ℕ) (sc : ℤ)
    (la : Option SmugglerAct) :
    ((s.decide r sc la).2).pending_deal =
      if s.immunity_turns = 0 ∧ s.pending_deal = PendingDeal.accepted then
        PendingDeal.none
      else s.pending_deal := by
  rcases Nat.eq_zero_or_pos s.immunity_turns with hz | hp
  · by_cases ha : s.pending_deal = PendingDeal.accepted
    · rw [if_pos ⟨hz, ha⟩]
      simp only [decide]
      rw [if_neg (by omega), if_pos ha]
      split_ifs <;> simp [record_honesty_pending, tick]
    · rw [if_neg (fun h => ha h.2)]
      simp only [decide]
      rw [if_neg (by omega), if_neg ha]
      split_ifs <;>
        simp [early_pending, mid_pending, late_pending, set_mood_pending,
          update_trust_pending]
  · rw [if_neg (fun h => by omega)]
    simp only [decide]
    rw [if_pos hp]

/-- In a non-immune, non-legacy `decide` call the final trust level is the one
produced by `_update_trust`; mood setting and phase dispatch never touch it. -/
lemma decide_trust_phase (s : InspectorAI) (r : ℕ) (sc : ℤ)
    (la : Option SmugglerAct) (hz : s.immunity_turns = 0)
    (ha : s.pending_deal ≠ PendingDeal.accepted) :
    ((s.decide r sc la).2).trust_level = (_update_trust la s).trust_level := by
  simp only [decide]
  rw [if_neg (by omega), if_neg ha]
  split_ifs <;>
    simp [early_trust, mid_trust, late_trust', set_mood_trust]

lemma handle_bribe_trust (s : InspectorAI) (r : ℕ) (sc : ℤ) :
    ((s.handle_bribe r sc).2).trust_level = s.trust_level := by
  simp only [handle_bribe]
  split_ifs <;> rfl

lemma handle_bribe_not_accepted (s : InspectorAI) (r : ℕ) (sc : ℤ)
    (h : s.pending_deal ≠ PendingDeal.accepted) :
    ((s.handle_bribe r sc).2).pending_deal ≠ PendingDeal.accepted := by
  simp only [handle_bribe]
  split_ifs <;> simp [tick] <;> exact h

lemma handle_truce_trust (s : InspectorAI) :
    (s.handle_truce_signal.2).trust_level = s.trust_level ∨
      (s.handle_truce_signal.2).trust_level = min 1 (s.trust_level + 1/10) := by
  simp only [handle_truce_signal]
  split_ifs <;> simp

lemma handle_truce_pending (s : InspectorAI) :
    (s.handle_truce_signal.2).pending_deal = s.pending_deal := by
  simp only [handle_truce_signal]
  split_ifs <;> rfl

lemma record_round_trust (s : InspectorAI) (pa : SmugglerAct)
    (ia : InspectorAct) (tr : Bool) :
    (s.record_round pa ia tr).trust_level = s.trust_level := rfl

lemma record_round_pending (s : InspectorAI) (pa : SmugglerAct)
    (ia : InspectorAct) (tr : Bool) :
    (s.record_round pa ia tr).pending_deal = s.pending_deal := rfl

/-- Lemma: `_update_trust` keeps the trust level inside `[0, 1]`. -/
lemma update_trust_bounds (s : InspectorAI) (la : Option SmugglerAct)
    (h0 : 0 ≤ s.trust_level) (h1 : s.trust_level ≤ 1) :
    0 ≤ (_update_trust la s).trust_level ∧
      (_update_trust la s).trust_level ≤ 1 := by
  cases la with
  | none => exact ⟨h0, h1⟩
  | some a =>
    cases a <;> simp only [_update_trust] <;> constructor <;>
      first
        | exact le_max_left _ _
        | exact min_le_left _ _
        | (apply max_le (by norm_num) (by linarith))
        | (apply le_min (by norm_num) (by linarith))

/-- Lemma: `decide` keeps the trust level inside `[0, 1]`. -/
lemma decide_trust_bounds (s : InspectorAI) (r : ℕ) (sc : ℤ)
    (la : Option SmugglerAct) (h0 : 0 ≤ s.trust_level)
    (h1 : s.trust_level ≤ 1) :
    0 ≤ ((s.decide r sc la).2).trust_level ∧
      ((s.decide r sc la).2).trust_level ≤ 1 := by
  rcases Nat.eq_zero_or_pos s.immunity_turns with hz | hp
  · by_cases ha : s.pending_deal = PendingDeal.accepted
    · simp only [decide]
      rw [if_neg (by omega), if_pos ha]
      split_ifs <;>
        simp [record_honesty_trust, tick, h0, h1]
    · rw [decide_trust_phase s r sc la hz ha]
      exact update_trust_bounds s la h0 h1
  · rw [decide_immune s r sc la hp]
    exact ⟨h0, h1⟩

/-- Lemma: `handle_truce_signal` keeps the trust level inside `[0, 1]`. -/
lemma truce_trust_bounds (s : InspectorAI) (h0 : 0 ≤ s.trust_level)
    (h1 : s.trust_level ≤ 1) :
    0 ≤ (s.handle_truce_signal.2).trust_level ∧
      (s.handle_truce_signal.2).trust_level ≤ 1 := by
  rcases handle_truce_trust s with h | h <;> rw [h]
  · exact ⟨h0, h1⟩
  · exact ⟨le_min (by norm_num) (by linarith), min_le_left _ _⟩

end InspectorAI

/-- The trust level stays in `[0, 1]` across any single public-interface
call. -/
lemma step_trust_bounds (s : InspectorAI) (op : Op)
    (h0 : 0 ≤ s.trust_level) (h1 : s.trust_level ≤ 1) :
    0 ≤ ((step s op).2).trust_level ∧ ((step s op).2).trust_level ≤ 1 := by
  cases op with
  | decideOp r sc la => exact s.decide_trust_bounds r sc la h0 h1
  | bribeOp r sc =>
    simp only [step]
    rw [s.handle_bribe_trust r sc]
    exact ⟨h0, h1⟩
  | truceOp => exact s.truce_trust_bounds h0 h1
  | recordOp pa ia tr => exact ⟨h0, h1⟩

lemma runOps_trust_bounds (s : InspectorAI) (ops : List Op)
    (h0 : 0 ≤ s.trust_level) (h1 : s.trust_level ≤ 1) :
    0 ≤ ((runOps s ops).2).trust_level ∧
      ((runOps s ops).2).trust_level ≤ 1 := by
  induction ops generalizing s with
  | nil => exact ⟨h0, h1⟩
  | cons op ops ih =>
    have h := step_trust_bounds s op h0 h1
    exact ih (step s op).2 h.1 h.2

/-- No state reachable through the public interface carries the dead legacy
`"accepted"` sentinel: `handle_bribe` always overwrites it before returning. -/
lemma step_not_accepted (s : InspectorAI) (op : Op)
    (h : s.pending_deal ≠ PendingDeal.accepted) :
    ((step s op).2).pending_deal ≠ PendingDeal.accepted := by
  cases op with
  | decideOp r sc la =>
    simp only [step]
    rw [s.decide_pending r sc la]
    split_ifs <;> simp_all
  | bribeOp r sc => exact s.handle_bribe_not_accepted r sc h
  | truceOp =>
    simp only [step]
    rw [s.handle_truce_pending]
    exact h
  | recordOp pa ia tr => exact h

lemma runOps_not_accepted (s : InspectorAI) (ops : List Op)
    (h : s.pending_deal ≠ PendingDeal.accepted) :
    ((runOps s ops).2).pending_deal ≠ PendingDeal.accepted := by
  induction ops generalizing s with
  | nil => exact h
  | cons op ops ih => exact ih (step s op).2 (step_not_accepted s op h)

/-- A helper lemma: the smuggler history accumulated by `recordAll` is the
original history followed by the smuggler actions of the recorded rounds. -/
lemma recordAll_history (s : InspectorAI)
    (rs : List (SmugglerAct × InspectorAct × Bool)) :
    (recordAll s rs).history_smuggler =
      s.history_smuggler ++ rs.map (fun p => p.1) := by
  induction rs generalizing s with
  | nil => simp [recordAll]
  | cons r rs ih =>
    simp [recordAll, InspectorAI.record_round, ih]

/-- An all-zero random stream, used for concrete instantiations. -/
def exS0 : ℕ → ℚ := fun _ => 0

/-- C2: while `immunity_turns > 0`, `decide` returns DontInspect with the fixed
announced line, decrements `immunity_turns` by exactly one, and short-circuits
before any trust update or phase logic runs: the resulting state differs from
the input state only in the decremented immunity counter (in particular the
trust level, mood, histories and random cursor are untouched). -/
theorem C2_immunity_short_circuit (s : InspectorAI) (r : ℕ) (sc : ℤ)
    (la : Option SmugglerAct) (h : 0 < s.immunity_turns) :
    (s.decide r sc la).1 =
      ⟨InspectorAct.dontInspect, false, some "I'm looking the other way."⟩
    ∧ (s.decide r sc la).2 = { s with immunity_turns := s.immunity_turns - 1 }
    ∧ ((s.decide r sc la).2).immunity_turns + 1 = s.immunity_turns := by
  rw [InspectorAI.decide_immune s r sc la h]
  refine ⟨rfl, rfl, ?_⟩
  simp only []
  omega

/-- Witness for C2 at a concrete immune state. -/
theorem C2_immunity_short_circuit_witness :
    0 < ({ InspectorAI.init exS0 with immunity_turns := 2 } :
      InspectorAI).immunity_turns ∧
    (({ InspectorAI.init exS0 with immunity_turns := 2 } :
      InspectorAI).decide 1 0 Option.none).1 =
      ⟨InspectorAct.dontInspect, false, some "I'm looking the other way."⟩ :=
  ⟨by norm_num,
    (C2_immunity_short_circuit _ 1 0 Option.none (by norm_num)).1⟩

/-- C3: starting from a freshly constructed instance (trust level 0.5), the
trust level remains within `[0, 1]` after any sequence of `decide`,
`handle_bribe`, `handle_truce_signal` and `record_round` calls: every
operation that modifies it clamps it into that interval. -/
theorem C3_trust_level_bounded (stream : ℕ → ℚ) (ops : List Op) :
    0 ≤ ((runOps (InspectorAI.init stream) ops).2).trust_level ∧
      ((runOps (InspectorAI.init stream) ops).2).trust_level ≤ 1 :=
  runOps_trust_bounds _ ops (by norm_num [InspectorAI.init])
    (by norm_num [InspectorAI.init])

/-- C4: two game instances constructed with the same seed (modelled by the
same random-draw stream, since the instance-owned `random.Random(seed)` is the
only randomness source) draw identical traits and, when driven with identical
sequences of `decide` / `handle_bribe` / `handle_truce_signal` /
`record_round` calls with identical arguments, produce identical output
sequences (decision triples, bribe-acceptance outcomes, truce responses) and
identical final states. -/
theorem C4_same_seed_determinism (stream : ℕ → ℚ) (i1 i2 : InspectorAI)
    (h1 : i1 = InspectorAI.init stream) (h2 : i2 = InspectorAI.init stream)
    (ops : List Op) :
    (i1.greed = i2.greed ∧ i1.deceptiveness = i2.deceptiveness ∧
      i1.adaptiveness = i2.adaptiveness) ∧
    (runOps i1 ops).1 = (runOps i2 ops).1 ∧
    (runOps i1 ops).2 = (runOps i2 ops).2 := by
  subst h1
  subst h2
  exact ⟨⟨rfl, rfl, rfl⟩, rfl, rfl⟩

/-- Witness for C4 at a concrete stream and call sequence. -/
theorem C4_same_seed_determinism_witness :
    ((InspectorAI.init exS0).greed = (InspectorAI.init exS0).greed) ∧
    (runOps (InspectorAI.init exS0)
        [Op.decideOp 1 0 Option.none, Op.bribeOp 2 0]).1 =
      (runOps (InspectorAI.init exS0)
        [Op.decideOp 1 0 Option.none, Op.bribeOp 2 0]).1 :=
  ⟨(C4_same_seed_determinism exS0 _ _ rfl rfl
      [Op.decideOp 1 0 Option.none, Op.bribeOp 2 0]).1.1,
    (C4_same_seed_determinism exS0 _ _ rfl rfl
      [Op.decideOp 1 0 Option.none, Op.bribeOp 2 0]).2.1⟩

/-- C7: `calculate_payoff` treats Bribe and SignalTruce as effective LayLow,
subtracts the bribe cost 3 exactly when the smuggler action is Bribe, returns
`catchPenalty (-5) × quantity` for inspected smuggling and
`successReward (10) × quantity` for uninspected smuggling, the unscaled 0 / +1
for effective LayLow, and in particular: smuggle caught at quantity 1 → -5,
smuggle uncaught at quantity 3 → +30, rejected bribe inspected → -3, laylow
not inspected → +1. -/
theorem C7_payoff_calculator :
    (∀ ia b (q : ℤ), calculate_payoff SmugglerAct.signalTruce ia b q =
      calculate_payoff SmugglerAct.layLow ia b q)
    ∧ (∀ ia b (q : ℤ), calculate_payoff SmugglerAct.bribe ia b q =
      -BRIBE_COST + calculate_payoff SmugglerAct.layLow ia b q)
    ∧ (∀ b (q : ℤ), calculate_payoff SmugglerAct.smuggle InspectorAct.inspect
      b q = PAYOFF_SMUGGLE_INSPECT * q)
    ∧ (∀ ia b (q : ℤ), ia ≠ InspectorAct.inspect →
      calculate_payoff SmugglerAct.smuggle ia b q = PAYOFF_SMUGGLE_DONT * q)
    ∧ (∀ b (q : ℤ), calculate_payoff SmugglerAct.layLow InspectorAct.inspect
      b q = PAYOFF_LAYLOW_INSPECT)
    ∧ (∀ ia b (q : ℤ), ia ≠ InspectorAct.inspect →
      calculate_payoff SmugglerAct.layLow ia b q = PAYOFF_LAYLOW_DONT)
    ∧ calculate_payoff SmugglerAct.smuggle InspectorAct.inspect false 1 = -5
    ∧ calculate_payoff SmugglerAct.smuggle InspectorAct.dontInspect false 3 = 30
    ∧ calculate_payoff SmugglerAct.bribe InspectorAct.inspect false 1 = -3
    ∧ calculate_payoff SmugglerAct.layLow InspectorAct.dontInspect false 1 = 1
    := by
  refine ⟨?_, ?_, ?_, ?_, ?_, ?_, by decide, by decide, by decide, by decide⟩
  · intro ia b q
    cases ia <;> simp [calculate_payoff]
  · intro ia b q
    cases ia <;>
      simp [calculate_payoff, BRIBE_COST, PAYOFF_LAYLOW_INSPECT,
        PAYOFF_LAYLOW_DONT]
  · intro b q
    simp [calculate_payoff]
  · intro ia b q h
    cases ia <;> simp_all [calculate_payoff]
  · intro b q
    simp [calculate_payoff]
  · intro ia b q h
    cases ia <;> simp_all [calculate_payoff]

/-- Witness for C7: the hypotheses `ia ≠ Inspect` discharged at DontInspect. -/
theorem C7_payoff_calculator_witness :
    calculate_payoff SmugglerAct.smuggle InspectorAct.dontInspect false 2 =
      PAYOFF_SMUGGLE_DONT * 2
    ∧ calculate_payoff SmugglerAct.layLow InspectorAct.dontInspect true 4 =
      PAYOFF_LAYLOW_DONT :=
  ⟨C7_payoff_calculator.2.2.2.1 InspectorAct.dontInspect false 2 (by decide),
    C7_payoff_calculator.2.2.2.2.2.1 InspectorAct.dontInspect true 4
      (by decide)⟩

/-- C8: the trust update applied at the start of each non-immune `decide`
call: None is a no-op; Smuggle lowers trust by 0.1 (clamped at 0) and resets
the passive counter; LayLow/SignalTruce raise it by 0.05 (clamped at 1) and
increment the passive counter; Bribe raises it by 0.02 (clamped at 1) and
resets the passive counter; the down-step exceeds the cooperative up-step,
which exceeds the bribe up-step; and on every reachable state every non-immune
`decide` call's final trust level is exactly the one this update produces. -/
theorem C8_trust_update (stream : ℕ → ℚ) (ops : List Op) (r : ℕ) (sc : ℤ)
    (la : Option SmugglerAct)
    (himm : ((runOps (InspectorAI.init stream) ops).2).immunity_turns = 0) :
    (∀ s : InspectorAI, InspectorAI._update_trust Option.none s = s)
    ∧ (∀ s : InspectorAI,
        (InspectorAI._update_trust (some SmugglerAct.smuggle) s).trust_level =
          max 0 (s.trust_level - 1/10)
        ∧ (InspectorAI._update_trust (some SmugglerAct.smuggle)
            s).consecutive_passive_rounds = 0)
    ∧ (∀ s : InspectorAI,
        (InspectorAI._update_trust (some SmugglerAct.layLow) s).trust_level =
          min 1 (s.trust_level + 5/100)
        ∧ (InspectorAI._update_trust (some SmugglerAct.layLow)
            s).consecutive_passive_rounds = s.consecutive_passive_rounds + 1)
    ∧ (∀ s : InspectorAI,
        (InspectorAI._update_trust (some SmugglerAct.signalTruce)
            s).trust_level = min 1 (s.trust_level + 5/100)
        ∧ (InspectorAI._update_trust (some SmugglerAct.signalTruce)
            s).consecutive_passive_rounds = s.consecutive_passive_rounds + 1)
    ∧ (∀ s : InspectorAI,
        (InspectorAI._update_trust (some SmugglerAct.bribe) s).trust_level =
          min 1 (s.trust_level + 2/100)
        ∧ (InspectorAI._update_trust (some SmugglerAct.bribe)
            s).consecutive_passive_rounds = 0)
    ∧ ((5:ℚ)/100 < 1/10 ∧ (2:ℚ)/100 < 5/100)
    ∧ ((((runOps (InspectorAI.init stream) ops).2).decide r sc la).2.trust_level
        = (InspectorAI._update_trust la
            ((runOps (InspectorAI.init stream) ops).2)).trust_level) := by
  refine ⟨fun s => rfl, fun s => ⟨rfl, rfl⟩, fun s => ⟨rfl, rfl⟩,
    fun s => ⟨rfl, rfl⟩, fun s => ⟨rfl, rfl⟩, by norm_num, ?_⟩
  apply InspectorAI.decide_trust_phase _ r sc la himm
  apply runOps_not_accepted
  simp [InspectorAI.init]

/-- Witness for C8 on the freshly constructed instance. -/
theorem C8_trust_update_witness :
    ((runOps (InspectorAI.init exS0) []).2).immunity_turns = 0 ∧
    (((runOps (InspectorAI.init exS0) []).2).decide 1 0
        (some SmugglerAct.smuggle)).2.trust_level =
      (InspectorAI._update_trust (some SmugglerAct.smuggle)
        ((runOps (InspectorAI.init exS0) []).2)).trust_level :=
  ⟨rfl, (C8_trust_update exS0 [] 1 0 (some SmugglerAct.smuggle) rfl).2.2.2.2.2.2⟩

/-- C10: on a freshly constructed instance the smuggle-frequency accessor
returns the default 0.3 and the cooperation-frequency accessor the default
0.5; once at least one round is recorded they return the exact count ratios
over the recorded history, with Bribe counted as cooperative. -/
theorem C10_frequency_accessors (stream : ℕ → ℚ)
    (rounds : List (SmugglerAct × InspectorAct × Bool)) (hne : rounds ≠ []) :
    ((InspectorAI.init stream).get_smuggle_frequency = 3/10
      ∧ (InspectorAI.init stream).get_cooperation_frequency = 5/10)
    ∧ ((recordAll (InspectorAI.init stream) rounds).get_smuggle_frequency =
        (rounds.countP (fun p => p.1 == SmugglerAct.smuggle) : ℚ) /
          (rounds.length : ℚ)
      ∧ (recordAll (InspectorAI.init stream)
          rounds).get_cooperation_frequency =
        (rounds.countP (fun p => p.1 == SmugglerAct.layLow ||
            p.1 == SmugglerAct.signalTruce || p.1 == SmugglerAct.bribe) : ℚ) /
          (rounds.length : ℚ)) := by
  have hhist : (recordAll (InspectorAI.init stream) rounds).history_smuggler =
      rounds.map (fun p => p.1) := by
    rw [recordAll_history]
    simp [InspectorAI.init]
  have hne' : rounds.map (fun p => p.1) ≠ [] := by
    simpa using hne
  refine ⟨⟨rfl, rfl⟩, ?_, ?_⟩
  · rw [InspectorAI.get_smuggle_frequency, hhist, if_neg hne']
    simp only [List.countP_map, List.length_map]
    rfl
  · rw [InspectorAI.get_cooperation_frequency, hhist, if_neg hne']
    simp only [List.countP_map, List.length_map]
    rfl

/-- Witness for C10 at a concrete one-round history. -/
theorem C10_frequency_accessors_witness :
    ([((SmugglerAct.bribe : SmugglerAct), (InspectorAct.inspect : InspectorAct),
        (false : Bool))] ≠
      ([] : List (SmugglerAct × InspectorAct × Bool))) ∧
    InspectorAI.get_cooperation_frequency (recordAll (InspectorAI.init exS0)
        [(SmugglerAct.bribe, InspectorAct.inspect, false)]) =
      (([(SmugglerAct.bribe, InspectorAct.inspect,
          false)].countP (fun p => p.1 == SmugglerAct.layLow ||
            p.1 == SmugglerAct.signalTruce || p.1 == SmugglerAct.bribe)) : ℚ) /
        (([(SmugglerAct.bribe, InspectorAct.inspect, false)].length : ℚ)) :=
  ⟨by simp,
    (C10_frequency_accessors exS0
      [(SmugglerAct.bribe, InspectorAct.inspect, false)] (by simp)).2.2⟩

/-- A concrete stream on which the bribe is accepted and honored, and the
third post-bribe `decide` call lands in the early phase and inspects. -/
def exS2 : ℕ → ℚ := fun n =>
  [5/10, 5/10, 5/10, 0, 5/10, 5/10, 0].getD n 0

/-- C5: when `handle_bribe` accepts a bribe and honors it (the resulting
`pending_deal` is the SafeGrant sentinel), it sets `immunity_turns` to 2, and
exactly the next two `decide` calls are forced to DontInspect, consuming one
immunity turn each (2 → 1 → 0); the forcing does not extend to a third call:
on a concrete honored-bribe run the first two `decide` calls return
DontInspect and the third returns Inspect. -/
theorem C5_honored_bribe_two_rounds (s : InspectorAI) (rn : ℕ) (sc : ℤ)
    (hacc : ((s.handle_bribe rn sc).1).1 = true)
    (hsafe : ((s.handle_bribe rn sc).2).pending_deal = PendingDeal.safe) :
    ((s.handle_bribe rn sc).2).immunity_turns = 2
    ∧ (∀ r1 sc1 la1,
        (((s.handle_bribe rn sc).2).decide r1 sc1 la1).1.action =
          InspectorAct.dontInspect
        ∧ ((((s.handle_bribe rn sc).2).decide r1 sc1 la1).2).immunity_turns = 1
        ∧ ∀ r2 sc2 la2,
            ((((((s.handle_bribe rn sc).2).decide r1 sc1 la1).2).decide r2 sc2
              la2).1).action = InspectorAct.dontInspect
            ∧ ((((((s.handle_bribe rn sc).2).decide r1 sc1 la1).2).decide r2
                sc2 la2).2).immunity_turns = 0)
    ∧ (((((((InspectorAI.init exS2).handle_bribe 1 0).2).decide 1 0
          Option.none).2).decide 2 0 Option.none).2.decide 3 0
        Option.none).1.action = InspectorAct.inspect := by
  have himm : ((s.handle_bribe rn sc).2).immunity_turns = 2 := by
    simp only [InspectorAI.handle_bribe] at hacc hsafe ⊢
    split_ifs at hacc hsafe ⊢ <;> simp_all
  refine ⟨himm, ?_, ?_⟩
  · intro r1 sc1 la1
    have h1 : 0 < ((s.handle_bribe rn sc).2).immunity_turns := by omega
    rw [InspectorAI.decide_immune _ r1 sc1 la1 h1]
    refine ⟨rfl, ?_, ?_⟩
    · show ((s.handle_bribe rn sc).2).immunity_turns - 1 = 1
      omega
    · intro r2 sc2 la2
      have h2 : 0 < ({ (s.handle_bribe rn sc).2 with
          immunity_turns := ((s.handle_bribe rn sc).2).immunity_turns - 1 } :
            InspectorAI).immunity_turns := by
        show 0 < ((s.handle_bribe rn sc).2).immunity_turns - 1
        omega
      rw [InspectorAI.decide_immune _ r2 sc2 la2 h2]
      refine ⟨rfl, ?_⟩
      show ((s.handle_bribe rn sc).2).immunity_turns - 1 - 1 = 0
      omega
  · norm_num [InspectorAI.init, InspectorAI.handle_bribe, InspectorAI.decide,
      InspectorAI.rand, InspectorAI.tick, InspectorAI._set_mood,
      InspectorAI._update_trust, InspectorAI._early_game_decision,
      InspectorAI.get_smuggle_frequency, exS2, EARLY_GAME_END, MID_GAME_END]
    simp

/-- Witness for C5 at a concrete honored-bribe run. -/
theorem C5_honored_bribe_two_rounds_witness :
    (((InspectorAI.init exS2).handle_bribe 1 0).1).1 = true
    ∧ (((InspectorAI.init exS2).handle_bribe 1 0).2).pending_deal =
      PendingDeal.safe
    ∧ (((InspectorAI.init exS2).handle_bribe 1 0).2).immunity_turns = 2 := by
  have h1 : (((InspectorAI.init exS2).handle_bribe 1 0).1).1 = true := by
    norm_num [InspectorAI.init, InspectorAI.handle_bribe, InspectorAI.rand,
      InspectorAI.tick, exS2, MID_GAME_END]
  have h2 : (((InspectorAI.init exS2).handle_bribe 1 0).2).pending_deal =
      PendingDeal.safe := by
    norm_num [InspectorAI.init, InspectorAI.handle_bribe, InspectorAI.rand,
      InspectorAI.tick, exS2, MID_GAME_END]
  exact ⟨h1, h2, (C5_honored_bribe_two_rounds _ 1 0 h1 h2).1⟩

/-- A concrete stream on which the bribe is accepted and betrayed
(`pending_deal` becomes `"trap"`), and the following `decide` call rolls
DontInspect in the early phase. -/
def exS1 : ℕ → ℚ := fun n =>
  [5/10, 5/10, 5/10, 0, 0, 5/10, 9/10].getD n 0

lemma exS1_bribe_trap :
    (((InspectorAI.init exS1).handle_bribe 1 0).2).pending_deal =
      PendingDeal.trap := by
  norm_num [InspectorAI.init, InspectorAI.handle_bribe, InspectorAI.rand,
    InspectorAI.tick, exS1, MID_GAME_END]

lemma exS1_bribe_immunity :
    (((InspectorAI.init exS1).handle_bribe 1 0).2).immunity_turns = 0 := by
  norm_num [InspectorAI.init, InspectorAI.handle_bribe, InspectorAI.rand,
    InspectorAI.tick, exS1, MID_GAME_END]

/-- Counterexample to C1: a reachable state (after a betrayed bribe) with
`pending_deal = "trap"` and `immunity_turns = 0` on which `decide` does not
return (Inspect, isBait=true) and does not reset the pending deal: it returns
DontInspect with `is_bait = false`, and `pending_deal` is still `"trap"`
afterwards. -/
theorem C1_trap_not_forced_in_decide :
    (((InspectorAI.init exS1).handle_bribe 1 0).2).pending_deal =
      PendingDeal.trap
    ∧ (((InspectorAI.init exS1).handle_bribe 1 0).2).immunity_turns = 0
    ∧ ((((InspectorAI.init exS1).handle_bribe 1 0).2).decide 1 0
        Option.none).1.action = InspectorAct.dontInspect
    ∧ ((((InspectorAI.init exS1).handle_bribe 1 0).2).decide 1 0
        Option.none).1.is_bait = false
    ∧ (((((InspectorAI.init exS1).handle_bribe 1 0).2).decide 1 0
        Option.none).2).pending_deal = PendingDeal.trap := by
  refine ⟨exS1_bribe_trap, exS1_bribe_immunity, ?_, ?_, ?_⟩ <;>
    (norm_num [InspectorAI.init, InspectorAI.handle_bribe, InspectorAI.decide,
      InspectorAI.rand, InspectorAI.tick, InspectorAI._set_mood,
      InspectorAI._update_trust, InspectorAI._early_game_decision,
      InspectorAI.get_smuggle_frequency, exS1, EARLY_GAME_END, MID_GAME_END]
     try simp)

/-- C1 (amended): with `pending_deal = "trap"` and no immunity, `decide`
itself does not force anything: it leaves `pending_deal = "trap"` unchanged,
and the forcing lives in the game engine's post-decide override in
`play_round`, which on a pending `"trap"` turns the round's inspector action
into Inspect, flags the trap as sprung, and resets `pending_deal` to None in
the same round. -/
theorem C1_trap_forced_by_engine (s : InspectorAI) (r : ℕ) (sc : ℤ)
    (la : Option SmugglerAct) (ba : Bool) (ia : InspectorAct) (wt : Bool)
    (hz : s.immunity_turns = 0) (ht : s.pending_deal = PendingDeal.trap) :
    ((s.decide r sc la).2).pending_deal = PendingDeal.trap
    ∧ resolve_bribe_override ba ia wt ((s.decide r sc la).2) =
        (InspectorAct.inspect, true,
          { (s.decide r sc la).2 with pending_deal := PendingDeal.none }) := by
  have hp : ((s.decide r sc la).2).pending_deal = PendingDeal.trap := by
    rw [InspectorAI.decide_pending]
    simp [ht]
  refine ⟨hp, ?_⟩
  simp only [resolve_bribe_override]
  rw [if_neg (fun h => h.2 hp), if_pos hp]

/-- Witness for the amended C1 at the betrayed-bribe state. -/
theorem C1_trap_forced_by_engine_witness :
    ((((InspectorAI.init exS1).handle_bribe 1 0).2).immunity_turns = 0
      ∧ (((InspectorAI.init exS1).handle_bribe 1 0).2).pending_deal =
        PendingDeal.trap)
    ∧ (((((InspectorAI.init exS1).handle_bribe 1 0).2).decide 1 0
        Option.none).2).pending_deal = PendingDeal.trap :=
  ⟨⟨exS1_bribe_immunity, exS1_bribe_trap⟩,
    (C1_trap_forced_by_engine _ 1 0 Option.none false InspectorAct.dontInspect
      false exS1_bribe_immunity exS1_bribe_trap).1⟩

/-- Lemma: `handle_bribe`, when it accepts and honors (resulting `pending_deal` is
the SafeGrant sentinel), grants exactly two immunity turns. -/
lemma handle_bribe_honored_immunity (s : InspectorAI) (rn : ℕ) (sc : ℤ)
    (hacc : ((s.handle_bribe rn sc).1).1 = true)
    (hsafe : ((s.handle_bribe rn sc).2).pending_deal = PendingDeal.safe) :
    ((s.handle_bribe rn sc).2).immunity_turns = 2 := by
  simp only [InspectorAI.handle_bribe] at hacc hsafe ⊢
  split_ifs at hacc hsafe ⊢ <;> simp_all

/-- Counterexample to C9: after an honored bribe, the SafeGrant path leaves
`pending_deal = "safe"` dangling — once the two immunity turns are consumed
and a third round is decided, the sentinel still persists with
`immunity_turns = 0`, so a pendingDeal value does outlive the immunity
counter. -/
theorem C9_safe_sentinel_persists :
    (((InspectorAI.init exS2).handle_bribe 1 0).2).pending_deal =
      PendingDeal.safe
    ∧ ((((((InspectorAI.init exS2).handle_bribe 1 0).2).decide 1 0
          Option.none).2).decide 2 0 Option.none).2.pending_deal =
        PendingDeal.safe
    ∧ (((((((InspectorAI.init exS2).handle_bribe 1 0).2).decide 1 0
          Option.none).2).decide 2 0 Option.none).2.decide 3 0
        Option.none).2.pending_deal = PendingDeal.safe
    ∧ (((((((InspectorAI.init exS2).handle_bribe 1 0).2).decide 1 0
          Option.none).2).decide 2 0 Option.none).2.decide 3 0
        Option.none).2.immunity_turns = 0
    ∧ PendingDeal.safe ≠ PendingDeal.none := by
  refine ⟨?_, ?_, ?_, ?_, by simp⟩ <;>
    (norm_num [InspectorAI.init, InspectorAI.handle_bribe, InspectorAI.decide,
      InspectorAI.rand, InspectorAI.tick, InspectorAI._set_mood,
      InspectorAI._update_trust, InspectorAI._early_game_decision,
      InspectorAI.get_smuggle_frequency, exS2, EARLY_GAME_END, MID_GAME_END]
     try simp)

/-- C9 (amended): a pendingDeal value read by `decide` is reset to None within
the call only when it is the legacy `"accepted"` sentinel; every other value
(including `"trap"`) passes through `decide` unchanged; the committed
SafeGrant path sets `immunity_turns = 2` but leaves `pending_deal = "safe"`
dangling, and `"safe"` persists through every later `decide` call. -/
theorem C9_pending_deal_lifecycle :
    (∀ (s : InspectorAI) (r : ℕ) (sc : ℤ) (la : Option SmugglerAct),
      ((s.decide r sc la).2).pending_deal =
        if s.immunity_turns = 0 ∧ s.pending_deal = PendingDeal.accepted then
          PendingDeal.none
        else s.pending_deal)
    ∧ (∀ (s : InspectorAI) (rn : ℕ) (sc : ℤ),
        ((s.handle_bribe rn sc).1).1 = true →
        ((s.handle_bribe rn sc).2).pending_deal = PendingDeal.safe →
        ((s.handle_bribe rn sc).2).immunity_turns = 2)
    ∧ (∀ (s : InspectorAI) (r : ℕ) (sc : ℤ) (la : Option SmugglerAct),
        s.pending_deal = PendingDeal.safe →
        ((s.decide r sc la).2).pending_deal = PendingDeal.safe) := by
  refine ⟨fun s r sc la => InspectorAI.decide_pending s r sc la,
    fun s rn sc hacc hsafe => handle_bribe_honored_immunity s rn sc hacc hsafe,
    fun s r sc la hsafe => ?_⟩
  rw [InspectorAI.decide_pending]
  simp [hsafe]

/-- Witness for the amended C9 at the honored-bribe state. -/
theorem C9_pending_deal_lifecycle_witness :
    ((((InspectorAI.init exS2).handle_bribe 1 0).1).1 = true
      ∧ (((InspectorAI.init exS2).handle_bribe 1 0).2).pending_deal =
        PendingDeal.safe)
    ∧ (((InspectorAI.init exS2).handle_bribe 1 0).2).immunity_turns = 2
    ∧ ((((InspectorAI.init exS2).handle_bribe 1 0).2).decide 1 0
        Option.none).2.pending_deal = PendingDeal.safe := by
  have h1 : (((InspectorAI.init exS2).handle_bribe 1 0).1).1 = true := by
    norm_num [InspectorAI.init, InspectorAI.handle_bribe, InspectorAI.rand,
      InspectorAI.tick, exS2, MID_GAME_END]
  have h2 : (((InspectorAI.init exS2).handle_bribe 1 0).2).pending_deal =
      PendingDeal.safe := by
    norm_num [InspectorAI.init, InspectorAI.handle_bribe, InspectorAI.rand,
      InspectorAI.tick, exS2, MID_GAME_END]
  exact ⟨⟨h1, h2⟩, C9_pending_deal_lifecycle.2.1 _ 1 0 h1 h2,
    C9_pending_deal_lifecycle.2.2 _ 1 0 Option.none h2⟩

/-- Passivity as used by the pattern detector: LayLow or SignalTruce. -/
def is_passive (a : SmugglerAct) : Prop :=
  a = SmugglerAct.layLow ∨ a = SmugglerAct.signalTruce

instance (a : SmugglerAct) : Decidable (is_passive a) := by
  unfold is_passive
  infer_instance

lemma not_len3_lt_three (pre : List SmugglerAct) (x y z : SmugglerAct) :
    ¬((pre ++ [x, y, z]).length < 3) := by
  simp only [List.length_append, List.length_cons, List.length_nil]
  omega

lemma drop_sub_three (pre : List SmugglerAct) (x y z : SmugglerAct) :
    (pre ++ [x, y, z]).drop ((pre ++ [x, y, z]).length - 3) = [x, y, z] := by
  have h : (pre ++ [x, y, z]).length - 3 = pre.length := by simp
  rw [h, List.drop_left]

lemma drop_sub_four (pre : List SmugglerAct) (a b c d : SmugglerAct) :
    (pre ++ [a, b, c, d]).drop ((pre ++ [a, b, c, d]).length - 4) =
      [a, b, c, d] := by
  have h : (pre ++ [a, b, c, d]).length - 4 = pre.length := by simp
  rw [h, List.drop_left]

lemma cons_four_eq (pre : List SmugglerAct) (a b c d : SmugglerAct) :
    pre ++ [a, b, c, d] = (pre ++ [a]) ++ [b, c, d] := by simp

lemma drop_four_sub_three (pre : List SmugglerAct) (a b c d : SmugglerAct) :
    (pre ++ [a, b, c, d]).drop ((pre ++ [a, b, c, d]).length - 3) =
      [b, c, d] := by
  rw [cons_four_eq]
  exact drop_sub_three (pre ++ [a]) b c d

lemma not_len4_lt_three (pre : List SmugglerAct) (a b c d : SmugglerAct) :
    ¬((pre ++ [a, b, c, d]).length < 3) := by
  rw [cons_four_eq]
  exact not_len3_lt_three (pre ++ [a]) b c d

lemma len4_ge_four (pre : List SmugglerAct) (a b c d : SmugglerAct) :
    4 ≤ (pre ++ [a, b, c, d]).length := by
  simp only [List.length_append, List.length_cons, List.length_nil]
  omega

/-- The inspector state reached by recording the alternating rounds
[LayLow, SignalTruce, LayLow, SignalTruce]. -/
def exPatternState : InspectorAI := recordAll (InspectorAI.init exS0)
  [(SmugglerAct.layLow, InspectorAct.dontInspect, false),
   (SmugglerAct.signalTruce, InspectorAct.dontInspect, false),
   (SmugglerAct.layLow, InspectorAct.dontInspect, false),
   (SmugglerAct.signalTruce, InspectorAct.dontInspect, false)]

/-- Counterexample to C6: on the recorded history
[LayLow, SignalTruce, LayLow, SignalTruce] the last four actions pairwise
differ at every adjacent position and the most recent action is passive, so
the claim's alternation clause demands Inspect; but the detector recommends
DontInspect, because the all-passive streak rule is checked first. -/
theorem C6_alternation_clause_fails :
    exPatternState.history_smuggler =
      [SmugglerAct.layLow, SmugglerAct.signalTruce, SmugglerAct.layLow,
        SmugglerAct.signalTruce]
    ∧ (SmugglerAct.layLow ≠ SmugglerAct.signalTruce
      ∧ SmugglerAct.signalTruce ≠ SmugglerAct.layLow
      ∧ is_passive SmugglerAct.signalTruce)
    ∧ exPatternState._detect_pattern ≠ some InspectorAct.inspect
    ∧ exPatternState._detect_pattern = some InspectorAct.dontInspect := by
  refine ⟨by decide, by decide, by decide, by decide⟩

/-- C6 (amended): the pattern detector returns none on histories shorter than
3; recommends Inspect when the last 3 actions are all Smuggle; recommends
DontInspect when the last 3 are all passive; when the history has at least 4
entries whose last 4 actions pairwise differ at every adjacent position and
the streak rules did not already fire, it recommends Inspect if the most
recent action is passive and DontInspect if the most recent is Smuggle; in
all remaining cases it returns none. -/
theorem C6_pattern_detector :
    (∀ s : InspectorAI, s.history_smuggler.length < 3 →
      s._detect_pattern = Option.none)
    ∧ (∀ (s : InspectorAI) (pre : List SmugglerAct),
        s.history_smuggler = pre ++ [SmugglerAct.smuggle, SmugglerAct.smuggle,
          SmugglerAct.smuggle] →
        s._detect_pattern = some InspectorAct.inspect)
    ∧ (∀ (s : InspectorAI) (pre : List SmugglerAct) (x y z : SmugglerAct),
        s.history_smuggler = pre ++ [x, y, z] →
        is_passive x → is_passive y → is_passive z →
        s._detect_pattern = some InspectorAct.dontInspect)
    ∧ (∀ (s : InspectorAI) (pre : List SmugglerAct) (a b c d : SmugglerAct),
        s.history_smuggler = pre ++ [a, b, c, d] →
        a ≠ b → b ≠ c → c ≠ d → is_passive d →
        ¬(is_passive b ∧ is_passive c ∧ is_passive d) →
        s._detect_pattern = some InspectorAct.inspect)
    ∧ (∀ (s : InspectorAI) (pre : List SmugglerAct) (a b c d : SmugglerAct),
        s.history_smuggler = pre ++ [a, b, c, d] →
        a ≠ b → b ≠ c → c ≠ d → d = SmugglerAct.smuggle →
        s._detect_pattern = some InspectorAct.dontInspect)
    ∧ (∀ (s : InspectorAI) (x y z : SmugglerAct),
        s.history_smuggler = [x, y, z] →
        ¬(x = SmugglerAct.smuggle ∧ y = SmugglerAct.smuggle ∧
          z = SmugglerAct.smuggle) →
        ¬(is_passive x ∧ is_passive y ∧ is_passive z) →
        s._detect_pattern = Option.none)
    ∧ (∀ (s : InspectorAI) (pre : List SmugglerAct) (a b c d : SmugglerAct),
        s.history_smuggler = pre ++ [a, b, c, d] →
        ¬(b = SmugglerAct.smuggle ∧ c = SmugglerAct.smuggle ∧
          d = SmugglerAct.smuggle) →
        ¬(is_passive b ∧ is_passive c ∧ is_passive d) →
        ¬(a ≠ b ∧ b ≠ c ∧ c ≠ d) →
        s._detect_pattern = Option.none) := by
  refine ⟨?_, ?_, ?_, ?_, ?_, ?_, ?_⟩
  · intro s h
    simp [InspectorAI._detect_pattern, h]
  · intro s pre hh
    simp only [InspectorAI._detect_pattern, hh]
    rw [if_neg (not_len3_lt_three pre _ _ _), drop_sub_three]
    simp
  · intro s pre x y z hh hx hy hz
    simp only [InspectorAI._detect_pattern, hh]
    rw [if_neg (not_len3_lt_three pre _ _ _), drop_sub_three]
    rcases hx with rfl | rfl <;> rcases hy with rfl | rfl <;>
      rcases hz with rfl | rfl <;> simp
  · intro s pre a b c d hh hab hbc hcd hd hnp
    have h4 := len4_ge_four pre a b c d
    simp only [InspectorAI._detect_pattern, hh]
    rw [if_neg (not_len4_lt_three pre _ _ _ _), drop_four_sub_three,
      drop_sub_four]
    rcases hd with rfl | rfl <;> cases b <;> cases c <;>
      simp_all [is_passive]
  · intro s pre a b c d hh hab hbc hcd hd
    subst hd
    have h4 := len4_ge_four pre a b c SmugglerAct.smuggle
    simp only [InspectorAI._detect_pattern, hh]
    rw [if_neg (not_len4_lt_three pre _ _ _ _), drop_four_sub_three,
      drop_sub_four]
    cases b <;> cases c <;> simp_all [is_passive]
  · intro s x y z hh h1 h2
    cases x <;> cases y <;> cases z <;>
      simp_all [InspectorAI._detect_pattern, is_passive]
  · intro s pre a b c d hh h1 h2 hno
    have h4 := len4_ge_four pre a b c d
    simp only [InspectorAI._detect_pattern, hh]
    rw [if_neg (not_len4_lt_three pre _ _ _ _), drop_four_sub_three,
      drop_sub_four]
    cases b <;> cases c <;> cases d <;> simp_all [is_passive]

/-- Witness for the amended C6 on concrete histories. -/
theorem C6_pattern_detector_witness :
    exPatternState._detect_pattern = some InspectorAct.dontInspect
    ∧ (recordAll (InspectorAI.init exS0)
        [(SmugglerAct.smuggle, InspectorAct.inspect, false),
         (SmugglerAct.layLow, InspectorAct.dontInspect, false),
         (SmugglerAct.smuggle, InspectorAct.inspect, false),
         (SmugglerAct.layLow, InspectorAct.dontInspect, false)]
        : InspectorAI)._detect_pattern = some InspectorAct.inspect :=
  ⟨C6_pattern_detector.2.2.1 exPatternState
      [SmugglerAct.layLow]
      SmugglerAct.signalTruce SmugglerAct.layLow SmugglerAct.signalTruce
      (by decide) (by decide) (by decide) (by decide),
    C6_pattern_detector.2.2.2.1 _ []
      SmugglerAct.smuggle SmugglerAct.layLow SmugglerAct.smuggle
      SmugglerAct.layLow (by decide) (by decide) (by decide) (by decide)
      (by decide) (by decide)⟩

end OneMoreRun
